import Mathlib

/-
Verification of the quiz/session logic of the telegram zoo bot
(src/telegram-zoo-bot/src/bot.py).

The bot is a short linear state machine over per-user session data stored
in `context.user_data`. The embedding below translates each handler's pure
session logic into a Lean function:

* `Animal` and the fallback content lists mirror the dataclass and the
  literal fallbacks of `load_animals` / `load_questions`; a file read that
  may raise `FileNotFoundError` is modelled by an `Option` of the parsed
  contents.
* `Session` gathers the `user_data` keys `questions`, `current_question`,
  `answers`, `result_animal`.
* `start_quiz`, `record_answer`, `current_prompt`, `compute_result`,
  `share_result_handler`, `startup_check` are the session-logic cores of
  `start_quiz_handler`, `answer_handler`, `show_question`, `show_result`,
  `share_result_handler` and the module-level `BOT_TOKEN` check.
* `Reachable` captures the session states that arise through the bot's own
  keyboards: a quiz start from any prior state, and an answer callback
  while a question is on display (`show_question` renders answer buttons
  only when `current_question < len(questions)`).
-/

namespace ZooBot

/-- The `Animal` dataclass (bot.py lines 27-37). `__post_init__` replaces a
missing `traits` value with the empty list, so in the embedding `traits` is
always a list; `adoption_info` defaults to the empty string at every
construction site used below. -/
structure Animal where
  name : String
  description : String
  image_url : String
  traits : List String
  adoption_info : String
deriving Repr, DecidableEq

/-- A question record `{question, answers}` as stored in
`data/questions.json` and in the built-in fallback list of
`load_questions`. -/
structure Question where
  question : String
  answers : List String
deriving Repr, DecidableEq

/-- The literal fallback animals returned by `load_animals` when
`data/animals.json` is absent (bot.py lines 45-50). -/
def fallback_animals : List Animal :=
  [⟨"Амурский тигр", "Величественный хищник", "", ["Сильный", "Независимый"], ""⟩,
   ⟨"Красная панда", "Милый пушистый зверёк", "", ["Игривый", "Спокойный"], ""⟩,
   ⟨"Снежный барс", "Неуловимый горный хищник", "", ["Ловкий", "Загадочный"], ""⟩]

/-- The literal fallback questions returned by `load_questions` when
`data/questions.json` is absent (bot.py lines 57-67). -/
def fallback_questions : List Question :=
  [⟨"Какое время дня вам больше нравится?", ["🌅 Утро", "☀️ День", "🌙 Вечер", "🌃 Ночь"]⟩,
   ⟨"Где бы вы хотели жить?", ["🏔️ Горы", "🌲 Лес", "🏖️ У воды", "🏜️ Пустыня"]⟩]

/-- `load_animals` (bot.py lines 40-50): the attempted file read is modelled
by an `Option` of the parsed contents; `none` stands for
`FileNotFoundError`, on which the function falls back to
`fallback_animals` instead of propagating the error (the function is
total: no other outcome exists). -/
def load_animals (fileData : Option (List Animal)) : List Animal :=
  match fileData with
  | some data => data
  | none => fallback_animals

/-- `load_questions` (bot.py lines 52-67), modelled like `load_animals`. -/
def load_questions (fileData : Option (List Question)) : List Question :=
  match fileData with
  | some data => data
  | none => fallback_questions

/-- Per-user session state: the `user_data` keys written by the handlers.
`questions` is the snapshot taken by `start_quiz_handler`,
`current_question` the quiz position, `answers` the collected answer
indices (non-negative by the `^answer_\d+$` callback pattern, hence `Nat`),
`result_animal` the computed result stored by `show_result`. -/
structure Session where
  questions : List Question
  current_question : Nat
  answers : List Nat
  result_animal : Option Animal
deriving Repr, DecidableEq

/-- `start_quiz_handler` (bot.py lines 98-107): snapshots the global
question list and resets progress, whatever the previous session state
was. -/
def start_quiz (globalQuestions : List Question) (s : Session) : Session :=
  { s with questions := globalQuestions, current_question := 0, answers := [] }

/-- The session mutation of `answer_handler` (bot.py lines 140-143):
appends the parsed answer index and increments the position. The handler
performs no range check on the index. -/
def record_answer (s : Session) (answer_index : Nat) : Session :=
  { s with answers := s.answers ++ [answer_index],
           current_question := s.current_question + 1 }

/-- The dispatch of `show_question` (bot.py lines 109-133): when
`current_question >= len(questions)` the quiz is finished and
`show_result` takes over (`none`); otherwise the question at
`current_question` is presented. -/
def current_prompt (s : Session) : Option Question :=
  if h : s.questions.length ≤ s.current_question then
    none
  else
    some (s.questions.get ⟨s.current_question, Nat.lt_of_not_le h⟩)

/-- `animal_index = total_score % len(ANIMALS)` from `show_result`
(bot.py line 154). -/
def animal_index (total_score : Nat) (pool : List Animal) : Nat :=
  total_score % pool.length

/-- The result computation of `show_result` (bot.py lines 152-155):
`total_score = sum(answers)`, `animal_index = total_score % len(pool)`,
result `pool[animal_index]`. An empty pool (in the code a
`ZeroDivisionError`; the global `ANIMALS` list is never empty) is
modelled as `none`. -/
def compute_result (answers : List Nat) (pool : List Animal) : Option Animal :=
  if h : 0 < pool.length then
    some (pool.get ⟨animal_index answers.sum pool, Nat.mod_lt _ h⟩)
  else
    none

/-- `show_result` as a session transformer (bot.py lines 147-158): computes
the result and stores it under `result_animal`. -/
def show_result (pool : List Animal) (s : Session) : Option (Animal × Session) :=
  match compute_result s.answers pool with
  | some a => some (a, { s with result_animal := some a })
  | none => none

/-- What `share_result_handler` renders. -/
inductive ShareOutcome where
  | errorMessage (text : String) : ShareOutcome
  | sharePrompt (shareText : String) : ShareOutcome
deriving Repr, DecidableEq

/-- `share_result_handler` (bot.py lines 211-230): with no stored
`result_animal` (only `None` is falsy here, a dataclass instance is always
truthy) it renders the redo-the-quiz error message and returns; otherwise
it renders the share prompt built from the stored animal's name. The
session is returned unchanged in both cases. -/
def share_result_handler (s : Session) : ShareOutcome × Session :=
  match s.result_animal with
  | none =>
      (ShareOutcome.errorMessage "Ошибка: пройдите викторину заново.", s)
  | some a =>
      (ShareOutcome.sharePrompt
        ("🎯 Я прошёл викторину зоопарка!\nМоё тотемное животное: " ++ a.name), s)

/-- The module-level credential check (bot.py lines 14-18):
`BOT_TOKEN = os.getenv('BOT_TOKEN')` is `none` when the variable is unset;
`if not BOT_TOKEN: raise ValueError(...)` is taken when the value is `None`
or the empty string (Python falsiness of `str`). -/
def startup_check (bot_token : Option String) : Except String String :=
  match bot_token with
  | none => Except.error "BOT_TOKEN not found in environment variables"
  | some t =>
      if t = "" then Except.error "BOT_TOKEN not found in environment variables"
      else Except.ok t

/-- Session states reachable through the bot's own keyboards: a quiz start
(callback `start_quiz`, offered from every screen) from any prior state,
and an answer callback (`answer_i`) while a question is on display, which
`show_question` does only when `current_question < len(questions)`. The
answer index is unconstrained: `answer_handler` accepts any `answer_k`
callback. -/
inductive Reachable (globalQuestions : List Question) : Session → Prop where
  | start (prev : Session) :
      Reachable globalQuestions (start_quiz globalQuestions prev)
  | answer (s : Session) (k : Nat) (hs : Reachable globalQuestions s)
      (hq : s.current_question < s.questions.length) :
      Reachable globalQuestions (record_answer s k)

/-- Claim C1 counterexample: in a freshly started session over the fallback
questions (first question has 4 answers) the out-of-range answer index 10
is not rejected: `answer_handler` appends it and advances the quiz, so
both `collectedAnswers` and `currentIndex` change. -/
theorem c1_counterexample :
    (fallback_questions.get ⟨0, by decide⟩).answers.length ≤ 10 ∧
    (record_answer ⟨fallback_questions, 0, [], none⟩ 10).answers ≠
      (⟨fallback_questions, 0, [], none⟩ : Session).answers ∧
    (record_answer ⟨fallback_questions, 0, [], none⟩ 10).current_question ≠
      (⟨fallback_questions, 0, [], none⟩ : Session).current_question := by
  decide

/-- Claim C1 (amended): recording an out-of-range answer index is not
rejected and no error is signalled: the index is appended to
`collectedAnswers` and `currentIndex` is incremented exactly as for a valid
index; the session is not crashed (`record_answer` is total). -/
theorem c1_record_answer_out_of_range (s : Session) (k : Nat)
    (hq : s.current_question < s.questions.length)
    (hk : (s.questions.get ⟨s.current_question, hq⟩).answers.length ≤ k) :
    (record_answer s k).answers = s.answers ++ [k] ∧
    (record_answer s k).current_question = s.current_question + 1 :=
  ⟨rfl, rfl⟩

/-- Witness for the amended C1 at a concrete out-of-range input. -/
theorem c1_witness :
    (⟨fallback_questions, 0, [], none⟩ : Session).current_question <
      (⟨fallback_questions, 0, [], none⟩ : Session).questions.length ∧
    ((record_answer ⟨fallback_questions, 0, [], none⟩ 10).answers = [10] ∧
     (record_answer ⟨fallback_questions, 0, [], none⟩ 10).current_question = 1) :=
  ⟨by decide,
   c1_record_answer_out_of_range ⟨fallback_questions, 0, [], none⟩ 10
     (by decide) (by decide)⟩

/-- Claim C2: for a non-empty result pool, `compute_result` returns
`pool[sum(answers) % len(pool)]`, and it is a deterministic function of the
answer sequence: identical answer sequences over the same pool yield the
identical result. -/
theorem c2_compute_result_spec :
    (∀ (answers : List Nat) (pool : List Animal) (h : 0 < pool.length),
       compute_result answers pool =
         some (pool.get ⟨answers.sum % pool.length, Nat.mod_lt _ h⟩)) ∧
    (∀ (a1 a2 : List Nat) (pool : List Animal), a1 = a2 →
       compute_result a1 pool = compute_result a2 pool) := by
  constructor
  · intro answers pool h
    simp [compute_result, animal_index, h]
  · intro a1 a2 pool h
    rw [h]

/-- Witness for C2 at the spec's worked example: answers `[1, 0]` over the
3-entry fallback pool give `pool[1]`. -/
theorem c2_witness :
    0 < fallback_animals.length ∧
    compute_result [1, 0] fallback_animals =
      some (fallback_animals.get ⟨1, by decide⟩) :=
  ⟨by decide, c2_compute_result_spec.1 [1, 0] fallback_animals (by decide)⟩

/-- Claim C3: every session state reachable through the bot's keyboards
satisfies `currentIndex = length collectedAnswers` and
`currentIndex ≤ length questionSet` (the lower bound `0 ≤ currentIndex` is
inherent in `Nat`); both `start_quiz` and `record_answer` steps preserve
the invariant. -/
theorem c3_session_invariant (gq : List Question) (s : Session)
    (hs : Reachable gq s) :
    s.current_question = s.answers.length ∧
    s.current_question ≤ s.questions.length := by
  induction hs with
  | start prev =>
      exact ⟨rfl, Nat.zero_le _⟩
  | answer t k ht hq ih =>
      refine ⟨?_, ?_⟩
      · simp [record_answer, ih.1]
      · simpa [record_answer] using hq

/-- Witness for C3 at a concrete reachable state: a restart from a stale
session followed by one answer. -/
theorem c3_witness :
    (record_answer (start_quiz fallback_questions ⟨[], 7, [9], none⟩) 2).current_question =
      (record_answer (start_quiz fallback_questions ⟨[], 7, [9], none⟩) 2).answers.length ∧
    (record_answer (start_quiz fallback_questions ⟨[], 7, [9], none⟩) 2).current_question ≤
      (record_answer (start_quiz fallback_questions ⟨[], 7, [9], none⟩) 2).questions.length :=
  c3_session_invariant fallback_questions _
    (Reachable.answer _ 2 (Reachable.start _) (by decide))

/-- Claim C4: after `start_quiz`, whatever the prior session state,
`currentIndex = 0`, `collectedAnswers = []`, and `questionSet` is the
snapshot of the current global question list. -/
theorem c4_start_quiz_spec (gq : List Question) (s : Session) :
    (start_quiz gq s).current_question = 0 ∧
    (start_quiz gq s).answers = [] ∧
    (start_quiz gq s).questions = gq :=
  ⟨rfl, rfl, rfl⟩

/-- Claim C5: recording a valid answer index appends exactly that index to
`collectedAnswers` and increments `currentIndex` by exactly 1, so both grow
by exactly 1. -/
theorem c5_record_answer_valid (s : Session) (k : Nat)
    (hq : s.current_question < s.questions.length)
    (hk : k < (s.questions.get ⟨s.current_question, hq⟩).answers.length) :
    (record_answer s k).answers = s.answers ++ [k] ∧
    (record_answer s k).current_question = s.current_question + 1 ∧
    (record_answer s k).answers.length = s.answers.length + 1 := by
  refine ⟨rfl, rfl, ?_⟩
  simp [record_answer]

/-- Witness for C5: answer index 1 (valid, first fallback question has 4
answers) in a fresh session. -/
theorem c5_witness :
    ((⟨fallback_questions, 0, [], none⟩ : Session).current_question <
       (⟨fallback_questions, 0, [], none⟩ : Session).questions.length) ∧
    ((record_answer ⟨fallback_questions, 0, [], none⟩ 1).answers = [1] ∧
     (record_answer ⟨fallback_questions, 0, [], none⟩ 1).current_question = 1 ∧
     (record_answer ⟨fallback_questions, 0, [], none⟩ 1).answers.length = 1) :=
  ⟨by decide,
   c5_record_answer_valid ⟨fallback_questions, 0, [], none⟩ 1 (by decide) (by decide)⟩

/-- Claim C6: `current_prompt` returns `questionSet[currentIndex]` whenever
`currentIndex < length questionSet`, and signals completion (`none`, the
branch where `show_question` hands over to `show_result`) whenever
`currentIndex ≥ length questionSet`. -/
theorem c6_current_prompt_spec (s : Session) :
    (∀ h : s.current_question < s.questions.length,
       current_prompt s = some (s.questions.get ⟨s.current_question, h⟩)) ∧
    (s.questions.length ≤ s.current_question → current_prompt s = none) := by
  constructor
  · intro h
    simp [current_prompt, Nat.not_le.mpr h]
  · intro h
    simp [current_prompt, h]

/-- Witness for C6: both branches at concrete sessions over the fallback
questions. -/
theorem c6_witness :
    current_prompt ⟨fallback_questions, 0, [], none⟩ =
      some (fallback_questions.get ⟨0, by decide⟩) ∧
    current_prompt ⟨fallback_questions, 2, [1, 0], none⟩ = none :=
  ⟨(c6_current_prompt_spec ⟨fallback_questions, 0, [], none⟩).1 (by decide),
   (c6_current_prompt_spec ⟨fallback_questions, 2, [1, 0], none⟩).2 (by decide)⟩

/-- Claim C7: with the content file absent (`none`), `load_animals` returns
exactly the documented 3-entry fallback list and `load_questions` exactly
the documented 2-entry fallback list; both functions are total, so the
missing-file condition is recovered locally and never surfaced as an
error. -/
theorem c7_fallback_content :
    load_animals none =
      [⟨"Амурский тигр", "Величественный хищник", "", ["Сильный", "Независимый"], ""⟩,
       ⟨"Красная панда", "Милый пушистый зверёк", "", ["Игривый", "Спокойный"], ""⟩,
       ⟨"Снежный барс", "Неуловимый горный хищник", "", ["Ловкий", "Загадочный"], ""⟩] ∧
    (load_animals none).length = 3 ∧
    load_questions none =
      [⟨"Какое время дня вам больше нравится?", ["🌅 Утро", "☀️ День", "🌙 Вечер", "🌃 Ночь"]⟩,
       ⟨"Где бы вы хотели жить?", ["🏔️ Горы", "🌲 Лес", "🏖️ У воды", "🏜️ Пустыня"]⟩] ∧
    (load_questions none).length = 2 :=
  ⟨rfl, rfl, rfl, rfl⟩

/-- Claim C8: for every non-negative score and non-empty pool,
`animal_index score pool = score % len(pool)` is a valid index into the
pool, so the indexing inside `compute_result` never goes out of bounds. -/
theorem c8_animal_index_in_bounds (total_score : Nat) (pool : List Animal)
    (h : 0 < pool.length) :
    animal_index total_score pool < pool.length :=
  Nat.mod_lt _ h

/-- Witness for C8 at score 7 over the fallback pool. -/
theorem c8_witness :
    0 < fallback_animals.length ∧
    animal_index 7 fallback_animals < fallback_animals.length :=
  ⟨by decide, c8_animal_index_in_bounds 7 fallback_animals (by decide)⟩

/-- Claim C9 counterexample: with the credential present in the environment
but equal to the empty string, `os.getenv` returns `''`, the falsy check
`if not BOT_TOKEN` is taken, and startup fails — contradicting the claim
that presence of the credential lets startup proceed. -/
theorem c9_counterexample :
    startup_check (some "") =
      Except.error "BOT_TOKEN not found in environment variables" ∧
    (startup_check (some "")).toOption = none := by
  constructor <;> rfl

/-- Claim C9 (amended): if the credential is absent, or present but empty,
startup fails with the fatal `ValueError`; if it is present and non-empty,
startup proceeds with that token. -/
theorem c9_startup_check_spec :
    startup_check none =
      Except.error "BOT_TOKEN not found in environment variables" ∧
    startup_check (some "") =
      Except.error "BOT_TOKEN not found in environment variables" ∧
    (∀ t : String, t ≠ "" → startup_check (some t) = Except.ok t) := by
  refine ⟨rfl, rfl, ?_⟩
  intro t ht
  simp [startup_check, ht]

/-- Witness for the amended C9 with a concrete non-empty token. -/
theorem c9_witness :
    ("123:ABC" ≠ "") ∧ startup_check (some "123:ABC") = Except.ok "123:ABC" :=
  ⟨by decide, c9_startup_check_spec.2.2 "123:ABC" (by decide)⟩

/-- Claim C10: invoking the share action with no stored computed result
renders the recoverable redo-the-quiz error message, leaves the session
unchanged, and does not crash (`share_result_handler` is total). -/
theorem c10_share_without_result (s : Session) (h : s.result_animal = none) :
    share_result_handler s =
      (ShareOutcome.errorMessage "Ошибка: пройдите викторину заново.", s) := by
  simp [share_result_handler, h]

/-- Witness for C10 at a concrete session with no stored result. -/
theorem c10_witness :
    ((⟨fallback_questions, 1, [2], none⟩ : Session).result_animal = none) ∧
    share_result_handler ⟨fallback_questions, 1, [2], none⟩ =
      (ShareOutcome.errorMessage "Ошибка: пройдите викторину заново.",
       ⟨fallback_questions, 1, [2], none⟩) :=
  ⟨rfl, c10_share_without_result ⟨fallback_questions, 1, [2], none⟩ rfl⟩

end ZooBot
